import Mathlib

/-!
Shallow embedding of the DockerDiff repository (ddiff.py and hub2registry.py)
and proofs about its diff/pack/replay pipeline and its store-seeder engine.

Conventions of the embedding:
* JSON manifests are modelled structurally, with optional fields standing for
  keys that may be absent from the document.
* Stateful code is modelled by explicit state passing: the relevant parts of
  the filesystem and the in-memory dedup set are fields of a state record.
* Python exceptions raised via print_error / raise are modelled with Except.
* The sha256 function is an abstract parameter `sha256_hex : Bytes -> String`;
  the claims proved here do not depend on its internals.
-/

/-! ## Media type constants (ddiff.py lines 14-28) -/

def DOCKER_MANIFEST_V2 : String := "application/vnd.docker.distribution.manifest.v2+json"

def DOCKER_MANIFEST_LIST_V2 : String := "application/vnd.docker.distribution.manifest.list.v2+json"

def OCI_MANIFEST_V1 : String := "application/vnd.oci.image.manifest.v1+json"

def OCI_INDEX_V1 : String := "application/vnd.oci.image.index.v1+json"

def SUPPORTED_MANIFEST_TYPES : List String := [DOCKER_MANIFEST_V2, OCI_MANIFEST_V1]

/-! ## Manifest model (JSON documents as consumed by ddiff.py) -/

/-- The `config` entry of a manifest; `digest` is `none` when the JSON object
has no "digest" key. -/
structure ManifestConfig where
  digest : Option String
  deriving DecidableEq, Repr

/-- One entry of the `layers` array; `digest` is `none` when the entry has no
"digest" key. -/
structure Layer where
  digest : Option String
  deriving DecidableEq, Repr

/-- A manifest JSON document as read by ddiff.py: `mediaType`, `config` and
`layers` keys may each be absent. -/
structure Manifest where
  mediaType : Option String
  config : Option ManifestConfig
  layers : List Layer
  deriving DecidableEq, Repr

/-- ddiff.py `_validate_manifest_media_type` (lines 81-87): a missing
"mediaType" key reads as the empty string via `manifest.get("mediaType", "")`;
list/index types are rejected; a truthy (non-empty) media type outside the
supported list is rejected; anything else (including the empty string) passes
and the media type is returned. -/
def validate_manifest_media_type (manifest : Manifest) : Except String String :=
  let media_type := manifest.mediaType.getD ""
  if media_type = DOCKER_MANIFEST_LIST_V2 ∨ media_type = OCI_INDEX_V1 then
    .error "Manifest list/index is not supported yet. Please provide a single image manifest tag."
  else if media_type ≠ "" ∧ media_type ∉ SUPPORTED_MANIFEST_TYPES then
    .error ("Unsupported manifest mediaType: " ++ media_type)
  else
    .ok media_type

/-- ddiff.py `_parse_blob_list` (lines 90-104): validate the media type, then
collect the config digest (when the config object and its digest key exist)
followed by the digest of every layer that has a digest key, in order. -/
def parse_blob_list (manifest : Manifest) : Except String (List String) :=
  match validate_manifest_media_type manifest with
  | .error e => .error e
  | .ok _ =>
    let cfg : List String :=
      match manifest.config with
      | some c =>
        match c.digest with
        | some d => [d]
        | none => []
      | none => []
    .ok (cfg ++ manifest.layers.filterMap Layer.digest)

/-! ## The diff/pack operation (ddiff.py `diff_image`, lines 198-246) -/

/-- Environment of one `diff_image` invocation: the outcome of each network
interaction.  `baseManifest` / `targetManifest` model `_request_manifest`
(manifest document and content type, or a raised error), `downloadOk` models
whether `_download_blob` succeeds for a given digest. -/
structure DiffEnv where
  baseManifest : Except String (Manifest × String)
  targetManifest : Except String (Manifest × String)
  downloadOk : String → Bool

/-- Observable outcome state of one `diff_image` invocation: whether the
`.ddiff-image` staging directory still exists at the end, whether the package
archive was created, and the digest sets persisted into the MOUNT_BLOBS and
UPLOAD_BLOBS package files (`none` when the file was never written). -/
structure DiffState where
  staging : Bool
  archive : Bool
  mountFile : Option (Finset String)
  uploadFile : Option (Finset String)
  deriving DecidableEq

/-- ddiff.py `diff_image` (lines 198-246).  The staging directory is created
up-front; every failure propagates as a raised error (print_error) with no
cleanup handler, so on failure paths the state keeps `staging := true`.  On
the success path the blob partition is persisted (MOUNT_BLOBS holds
`set(target_blobs) - diff_blobs`, UPLOAD_BLOBS holds `diff_blobs`), the
archive is created, and the staging directory is removed. -/
def diff_image (env : DiffEnv) : DiffState × Except String Unit :=
  let st0 : DiffState := { staging := true, archive := false, mountFile := none, uploadFile := none }
  match env.baseManifest with
  | .error e => (st0, .error e)
  | .ok (base_manifest, _) =>
    match env.targetManifest with
    | .error e => (st0, .error e)
    | .ok (target_manifest, _) =>
      match parse_blob_list base_manifest with
      | .error e => (st0, .error e)
      | .ok base_blobs =>
        match parse_blob_list target_manifest with
        | .error e => (st0, .error e)
        | .ok target_blobs =>
          let diff_blobs := target_blobs.toFinset \ base_blobs.toFinset
          if ∀ d ∈ diff_blobs, env.downloadOk d = true then
            ({ staging := false, archive := true,
               mountFile := some (target_blobs.toFinset \ diff_blobs),
               uploadFile := some diff_blobs }, .ok ())
          else
            (st0, .error "download failed")

/-! ## The replay operation (ddiff.py `load_image`, lines 248-296) -/

/-- Content of a MOUNT_BLOBS / UPLOAD_BLOBS package file as written by
`diff_image` (lines 234-237): the digests joined with "|", here from a chosen
enumeration of the digest set. -/
def write_blobs_file (digests : List String) : String :=
  String.intercalate "|" digests

/-- Python's `str.split(sep)` for a one-character separator, over character
lists: splitting the empty string yields `[[]]` (one empty field), never the
empty list. -/
def splitOnChar (c : Char) : List Char → List (List Char)
  | [] => [[]]
  | x :: xs =>
    if x = c then
      [] :: splitOnChar c xs
    else
      match splitOnChar c xs with
      | [] => [[x]]
      | w :: ws => (x :: w) :: ws

/-- Python's `str.strip()` over character lists: drop whitespace from both
ends. -/
def stripList (l : List Char) : List Char :=
  ((l.dropWhile Char.isWhitespace).reverse.dropWhile Char.isWhitespace).reverse

/-- Parsing of a MOUNT_BLOBS / UPLOAD_BLOBS package file by `load_image`
(lines 265-268): `f.read().strip().split("|")`. -/
def parse_blobs_file (content : String) : List String :=
  (splitOnChar '|' (stripList content.toList)).map String.mk

/-- ddiff.py `_cross_mount` (lines 147-157).  `urllib.request.urlopen` raises
`HTTPError` for a 4xx/5xx status, which `print_error` turns into a raised
RuntimeError; otherwise a 201 status logs a successful mount, a 202 status is
reported as an error via `print_error` (raised, never converted into an
upload), and any other non-error status falls through silently. -/
def cross_mount (status : Nat) : Except String Unit :=
  if 400 ≤ status then
    .error "Mount failed"
  else if status = 201 then
    .ok ()
  else if status = 202 then
    .error "Mount fallback: digest not found in base repository"
  else
    .ok ()

/-- The mount loop of `load_image` (lines 277-278): call `_cross_mount` for
each digest in order, stopping at the first raised error.  Returns the list of
digests for which a cross-mount request was issued, and the outcome. -/
def mount_loop (status : String → Nat) : List String → List String × Except String Unit
  | [] => ([], .ok ())
  | b :: bs =>
    match cross_mount (status b) with
    | .error e => ([b], .error e)
    | .ok _ => (b :: (mount_loop status bs).1, (mount_loop status bs).2)

/-- The upload loop of `load_image` (lines 280-282): `_upload_blob` for each
digest in order, stopping at the first raised error.  Returns the list of
digests for which an upload was issued, and the outcome. -/
def upload_loop (ok : String → Bool) : List String → List String × Except String Unit
  | [] => ([], .ok ())
  | b :: bs =>
    if ok b then
      (b :: (upload_loop ok bs).1, (upload_loop ok bs).2)
    else
      ([b], .error "Upload failed")

/-- Environment of one `load_image` invocation: the contents of the two blob
list files extracted from the package, the HTTP status each cross-mount
request receives, whether each upload succeeds, and whether the final manifest
PUT succeeds. -/
structure LoadEnv where
  mountFile : String
  uploadFile : String
  mountStatus : String → Nat
  uploadOk : String → Bool
  manifestPutOk : Bool

/-- Observable outcome state of one `load_image` invocation: whether the
`.ddiff-image` staging directory still exists at the end, which digests got a
cross-mount request, which digests got an upload request, and whether the
manifest PUT was attempted. -/
structure LoadState where
  staging : Bool
  mountCalls : List String
  uploadCalls : List String
  manifestPut : Bool
  deriving DecidableEq, Repr

/-- ddiff.py `load_image` (lines 248-296): extract the package (staging
directory appears), parse the two blob files, run the mount loop then the
upload loop then the manifest PUT, each raised error aborting the rest with no
cleanup handler; only the success path removes the staging directory. -/
def load_image (env : LoadEnv) : LoadState × Except String Unit :=
  let mres := mount_loop env.mountStatus (parse_blobs_file env.mountFile)
  match mres.2 with
  | .error e =>
    ({ staging := true, mountCalls := mres.1, uploadCalls := [], manifestPut := false }, .error e)
  | .ok _ =>
    let ures := upload_loop env.uploadOk (parse_blobs_file env.uploadFile)
    match ures.2 with
    | .error e =>
      ({ staging := true, mountCalls := mres.1, uploadCalls := ures.1, manifestPut := false },
       .error e)
    | .ok _ =>
      if env.manifestPutOk then
        ({ staging := false, mountCalls := mres.1, uploadCalls := ures.1, manifestPut := true },
         .ok ())
      else
        ({ staging := true, mountCalls := mres.1, uploadCalls := ures.1, manifestPut := true },
         .error "Manifest upload failed")

/-! ## Store Seeder: verified blob download (hub2registry.py) -/

/-- Byte sequences, as lists of byte values. -/
abbrev Bytes := List Nat

/-- hub2registry.py: the part of `digest.split(":", 1)` after the first colon
(the expected hex digest). -/
def digestHex (digest : String) : String :=
  String.mk ((digest.toList.dropWhile (fun c => c ≠ ':')).drop 1)

/-- State of the store for one digest-addressed destination path: the content
at the canonical path `dest_path` (if any), the content at the temporary path
`dest_path + ".part"` (if any), and the process-wide DOWNLOADED dedup set. -/
structure BlobStore where
  canonical : Option Bytes
  tmp : Option Bytes
  downloaded : Finset String

/-- hub2registry.py `stream_download_blob` (lines 169-213): skip when the
canonical path exists (marking the digest downloaded) or when the digest is
already in the dedup set; otherwise tentatively mark it, stream the fetched
body into the temporary file while hashing, and compare the computed hex to
the digest's hex: on mismatch remove the temporary file, discard the digest
from the dedup set and raise; on match atomically rename the temporary file
into the canonical path. -/
def stream_download_blob (sha256_hex : Bytes → String) (digest : String) (body : Bytes)
    (st : BlobStore) : BlobStore × Except String Unit :=
  if st.canonical.isSome then
    ({ st with downloaded := insert digest st.downloaded }, .ok ())
  else if digest ∈ st.downloaded then
    (st, .ok ())
  else
    let st1 : BlobStore := { st with downloaded := insert digest st.downloaded, tmp := some body }
    let got := sha256_hex body
    if got ≠ digestHex digest then
      ({ st1 with tmp := none, downloaded := st1.downloaded.erase digest },
       .error ("SHA256 mismatch for " ++ digest))
    else
      ({ st1 with tmp := none, canonical := some body }, .ok ())

/-- hub2registry.py `process_image`, manifest-as-blob block (lines 258-273):
when the canonical path for the manifest digest `sha256:(sha256_hex man_bytes)`
is missing, write the manifest bytes to the temporary path, re-hash the
written file, raise (removing the temporary file) if the hash differs from the
manifest digest's hex, and otherwise rename into place and mark the digest
downloaded. -/
def write_manifest_blob (sha256_hex : Bytes → String) (man_bytes : Bytes)
    (st : BlobStore) : BlobStore × Except String Unit :=
  let mdhex := sha256_hex man_bytes
  if st.canonical.isSome then
    (st, .ok ())
  else
    let st1 : BlobStore := { st with tmp := some man_bytes }
    let got := sha256_hex man_bytes
    if got ≠ mdhex then
      ({ st1 with tmp := none }, .error ("Manifest blob sha mismatch for sha256:" ++ mdhex))
    else
      ({ st1 with
           tmp := none
           canonical := some man_bytes
           downloaded := insert ("sha256:" ++ mdhex) st1.downloaded }, .ok ())

/-! ## Store Seeder: platform selection (hub2registry.py `fetch_manifest`) -/

/-- One entry of a manifest index's `manifests` array: the `platform` object's
`os` and `architecture` keys (absent keys are `none`) and the entry digest. -/
structure PlatformEntry where
  os : Option String
  architecture : Option String
  digest : String
  deriving DecidableEq, Repr

/-- The selection loop of `fetch_manifest` (lines 153-158): the first entry
whose platform has os "linux" and architecture "amd64". -/
def pick_amd64 : List PlatformEntry → Option String
  | [] => none
  | e :: rest =>
    if e.os = some "linux" ∧ e.architecture = some "amd64" then
      some e.digest
    else
      pick_amd64 rest

/-- hub2registry.py `fetch_manifest` (lines 135-167), resolution step: when
the response content type indicates a list/index, select the linux/amd64 entry
and fetch that entry's manifest by digest, raising when no entry matches;
otherwise the response body is the manifest. -/
def fetch_manifest (isIndex : Bool) (entries : List PlatformEntry)
    (fetchByDigest : String → Bytes) (body : Bytes) : Except String Bytes :=
  if isIndex then
    match pick_amd64 entries with
    | some picked => .ok (fetchByDigest picked)
    | none => .error "linux/amd64 not found in index"
  else
    .ok body

/-! ## Store Seeder: retry wrapper (hub2registry.py `_with_retry`, lines 112-132) -/

/-- Errors a wrapped network call can raise: an HTTPError with an optional
status code (`none` when `e.response is None`), a ConnectionError, or a
Timeout. -/
inductive ReqError where
  | http (status : Option Nat)
  | conn
  | timeout
  deriving DecidableEq, Repr

/-- Outcome of one attempt of the wrapped call. -/
inductive Outcome (α : Type) where
  | ok (a : α)
  | err (e : ReqError)

/-- `status in (429, 500, 502, 503, 504)` for HTTPError (a `None` status is
not in the tuple), and ConnectionError / Timeout are always retried. -/
def retryableError : ReqError → Bool
  | .http (some s) => decide (s ∈ [429, 500, 502, 503, 504])
  | .http none => false
  | .conn => true
  | .timeout => true

/-- Result of `_with_retry`: the wrapped call's value, a raised error, or the
implicit `None` return when the loop body never runs (only with zero
retries). -/
inductive RetryResult (α : Type) where
  | success (a : α)
  | failure (e : ReqError)
  | noResult

/-- Observable trace of `_with_retry`: the durations passed to `time.sleep`
in order, and the number of times the wrapped call was attempted. -/
structure RetryTrace where
  sleeps : List Nat
  attempts : Nat
  deriving DecidableEq, Repr

/-- The `for i in range(retries)` loop of `_with_retry` (lines 114-130), with
`base_delay = 1` and `max_delay = 8`: attempt the call; on success return; on
a retryable error sleep `min(max_delay, base_delay * 2 ** i)` and continue
with the error recorded as `last`; on any other error raise immediately; when
the loop ends raise the recorded `last` error. -/
def retryLoop (outcomes : Nat → Outcome α) : Nat → Nat → Option ReqError → RetryResult α × RetryTrace
  | 0, _, last =>
    match last with
    | some e => (.failure e, ⟨[], 0⟩)
    | none => (.noResult, ⟨[], 0⟩)
  | n + 1, i, _last =>
    match outcomes i with
    | .ok a => (.success a, ⟨[], 1⟩)
    | .err e =>
      if retryableError e then
        ((retryLoop outcomes n (i + 1) (some e)).1,
         ⟨min 8 (1 * 2 ^ i) :: (retryLoop outcomes n (i + 1) (some e)).2.sleeps,
          (retryLoop outcomes n (i + 1) (some e)).2.attempts + 1⟩)
      else
        (.failure e, ⟨[], 1⟩)

/-- hub2registry.py `_with_retry` with its default `retries=5`,
`base_delay=1.0`, `max_delay=8.0` (the only configuration used). -/
def with_retry (outcomes : Nat → Outcome α) : RetryResult α × RetryTrace :=
  retryLoop outcomes 5 0 none

/-! ## Claim theorems -/

/-- C4: for every manifest with a config digest `c` and layer digests
`[l1..ln]` in manifest order (and a media type that passes validation, since
`_parse_blob_list` validates first), the extracted blob list is exactly
`[c, l1, ..., ln]`, preserving order. -/
theorem parse_blob_list_config_then_layers (m : Manifest) (c : String) (ls : List String)
    (hv : ∃ mt, validate_manifest_media_type m = .ok mt)
    (hc : m.config = some { digest := some c })
    (hl : m.layers = ls.map fun d => { digest := some d }) :
    parse_blob_list m = .ok (c :: ls) := by
  obtain ⟨mt, hmt⟩ := hv
  have key : ∀ l : List String,
      List.filterMap Layer.digest (l.map fun d => ({ digest := some d } : Layer)) = l := by
    intro l
    induction l with
    | nil => rfl
    | cons a t ih => simp [List.filterMap_cons, ih]
  unfold parse_blob_list
  rw [hmt, hc, hl]
  simp [key]

/-- C4 witness: a concrete Docker v2 manifest with config digest "c" and
layers "l1", "l2" parses to ["c", "l1", "l2"]. -/
theorem parse_blob_list_config_then_layers_witness :
    (∃ mt, validate_manifest_media_type { mediaType := some DOCKER_MANIFEST_V2, config := some { digest := some "c" }, layers := [{ digest := some "l1" }, { digest := some "l2" }] } = .ok mt) ∧
    parse_blob_list { mediaType := some DOCKER_MANIFEST_V2, config := some { digest := some "c" }, layers := [{ digest := some "l1" }, { digest := some "l2" }] } = .ok ["c", "l1", "l2"] :=
  ⟨⟨DOCKER_MANIFEST_V2, rfl⟩,
   parse_blob_list_config_then_layers _ "c" ["l1", "l2"] ⟨DOCKER_MANIFEST_V2, rfl⟩ rfl rfl⟩

/-- C3 counterexample: a manifest with no declared mediaType.  Its effective
media type "" is outside the supported single-image allow-list, yet
`_parse_blob_list` succeeds and produces a blob list, because the second
validation branch only fires for a truthy (non-empty) media type. -/
theorem validate_accepts_missing_media_type :
    (Manifest.mediaType { mediaType := none, config := some { digest := some "sha256:c" }, layers := [] }).getD "" ∉ SUPPORTED_MANIFEST_TYPES ∧
    parse_blob_list { mediaType := none, config := some { digest := some "sha256:c" }, layers := [] } = .ok ["sha256:c"] := by
  constructor
  · decide
  · rfl

/-- C3 amended: validation fails (and no blob list is produced) for every
manifest whose declared mediaType is a list/index type, and for every manifest
whose mediaType is a non-empty string outside the single-image allow-list; a
missing or empty mediaType is accepted.  The check is applied to both the base
and the target manifest of `diff_image`, so such a manifest on either side
makes the whole diff fail. -/
theorem validate_rejects_declared_unsupported (m : Manifest) (env : DiffEnv)
    (h : m.mediaType.getD "" = DOCKER_MANIFEST_LIST_V2 ∨ m.mediaType.getD "" = OCI_INDEX_V1 ∨
      (m.mediaType.getD "" ≠ "" ∧ m.mediaType.getD "" ∉ SUPPORTED_MANIFEST_TYPES)) :
    (∃ e, parse_blob_list m = .error e) ∧
    ((∃ ct, env.baseManifest = .ok (m, ct)) → ∃ e, (diff_image env).2 = .error e) ∧
    ((∃ ct, env.targetManifest = .ok (m, ct)) → ∃ e, (diff_image env).2 = .error e) := by
  have hval : ∃ e, validate_manifest_media_type m = .error e := by
    unfold validate_manifest_media_type
    rcases h with h | h | ⟨h1, h2⟩
    · exact ⟨_, by rw [if_pos (Or.inl h)]⟩
    · exact ⟨_, by rw [if_pos (Or.inr h)]⟩
    · by_cases hli : m.mediaType.getD "" = DOCKER_MANIFEST_LIST_V2 ∨ m.mediaType.getD "" = OCI_INDEX_V1
      · exact ⟨_, by rw [if_pos hli]⟩
      · exact ⟨_, by rw [if_neg hli, if_pos ⟨h1, h2⟩]⟩
  have hparse : ∃ e, parse_blob_list m = .error e := by
    obtain ⟨e, he⟩ := hval
    exact ⟨e, by unfold parse_blob_list; rw [he]⟩
  obtain ⟨e, hpe⟩ := hparse
  refine ⟨⟨e, hpe⟩, ?_, ?_⟩
  · rintro ⟨ct, hb⟩
    rcases ht : env.targetManifest with e2 | ⟨tm, tct⟩
    · exact ⟨e2, by simp [diff_image, hb, ht]⟩
    · exact ⟨e, by simp [diff_image, hb, ht, hpe]⟩
  · rintro ⟨ct, htg⟩
    rcases hb : env.baseManifest with e2 | ⟨bm, bct⟩
    · exact ⟨e2, by simp [diff_image, hb]⟩
    · rcases hpb : parse_blob_list bm with e2 | bl
      · exact ⟨e2, by simp [diff_image, hb, htg, hpb]⟩
      · exact ⟨e, by simp [diff_image, hb, htg, hpb, hpe]⟩

/-- C3 amended witness: a manifest declaring the OCI index media type is
rejected by `_parse_blob_list`. -/
theorem validate_rejects_declared_unsupported_witness :
    (Manifest.mediaType { mediaType := some OCI_INDEX_V1, config := none, layers := [] }).getD "" = OCI_INDEX_V1 ∧
    (∃ e, parse_blob_list { mediaType := some OCI_INDEX_V1, config := none, layers := [] } = .error e) :=
  ⟨rfl,
   (validate_rejects_declared_unsupported
     { mediaType := some OCI_INDEX_V1, config := none, layers := [] }
     { baseManifest := .error "e", targetManifest := .error "e", downloadOk := fun _ => true }
     (Or.inr (Or.inl rfl))).1⟩

/-- Helper: on a run of `diff_image` where both manifest fetches and both blob
list parses succeed and every exclusive blob downloads, the whole result state
is determined. -/
theorem diff_image_success_run (env : DiffEnv) (bm tm : Manifest) (bct tct : String)
    (bl tl : List String)
    (hb : env.baseManifest = .ok (bm, bct))
    (ht : env.targetManifest = .ok (tm, tct))
    (hpb : parse_blob_list bm = .ok bl)
    (hpt : parse_blob_list tm = .ok tl)
    (hdl : ∀ d ∈ tl.toFinset \ bl.toFinset, env.downloadOk d = true) :
    diff_image env =
      ({ staging := false, archive := true,
         mountFile := some (tl.toFinset \ (tl.toFinset \ bl.toFinset)),
         uploadFile := some (tl.toFinset \ bl.toFinset) }, .ok ()) := by
  simp only [diff_image, hb, ht, hpb, hpt]
  rw [if_pos]
  intro d hd
  exact hdl d hd

/-- C1: for valid single-image base/target manifests (both parses succeed) and
a completing run, the diff partitions the target blob set: the persisted
MOUNT_BLOBS set is the intersection of target and base blob sets, the
persisted UPLOAD_BLOBS set is target minus base, the two are disjoint, and
their union is the target blob set. -/
theorem diff_image_partition (env : DiffEnv) (bm tm : Manifest) (bct tct : String)
    (bl tl : List String)
    (hb : env.baseManifest = .ok (bm, bct))
    (ht : env.targetManifest = .ok (tm, tct))
    (hpb : parse_blob_list bm = .ok bl)
    (hpt : parse_blob_list tm = .ok tl)
    (hdl : ∀ d ∈ tl.toFinset \ bl.toFinset, env.downloadOk d = true) :
    (diff_image env).1.mountFile = some (tl.toFinset ∩ bl.toFinset) ∧
    (diff_image env).1.uploadFile = some (tl.toFinset \ bl.toFinset) ∧
    Disjoint (tl.toFinset ∩ bl.toFinset) (tl.toFinset \ bl.toFinset) ∧
    (tl.toFinset ∩ bl.toFinset) ∪ (tl.toFinset \ bl.toFinset) = tl.toFinset := by
  rw [diff_image_success_run env bm tm bct tct bl tl hb ht hpb hpt hdl]
  refine ⟨by rw [Finset.sdiff_sdiff_self_left], rfl, ?_, ?_⟩
  · rw [Finset.disjoint_left]
    intro a ha hb2
    exact (Finset.mem_sdiff.mp hb2).2 (Finset.mem_inter.mp ha).2
  · ext a
    simp only [Finset.mem_union, Finset.mem_inter, Finset.mem_sdiff]
    tauto

/-- C1 witness: base blobs {A, B, C}, target blobs {A, B, D}; the persisted
partition is mountable {A, B} and exclusive {D}. -/
theorem diff_image_partition_witness :
    (diff_image { baseManifest := .ok ({ mediaType := some DOCKER_MANIFEST_V2, config := some { digest := some "A" }, layers := [{ digest := some "B" }, { digest := some "C" }] }, DOCKER_MANIFEST_V2), targetManifest := .ok ({ mediaType := some DOCKER_MANIFEST_V2, config := some { digest := some "A" }, layers := [{ digest := some "B" }, { digest := some "D" }] }, DOCKER_MANIFEST_V2), downloadOk := fun _ => true }).1.mountFile =
      some (["A", "B", "D"].toFinset ∩ ["A", "B", "C"].toFinset) ∧
    (diff_image { baseManifest := .ok ({ mediaType := some DOCKER_MANIFEST_V2, config := some { digest := some "A" }, layers := [{ digest := some "B" }, { digest := some "C" }] }, DOCKER_MANIFEST_V2), targetManifest := .ok ({ mediaType := some DOCKER_MANIFEST_V2, config := some { digest := some "A" }, layers := [{ digest := some "B" }, { digest := some "D" }] }, DOCKER_MANIFEST_V2), downloadOk := fun _ => true }).1.uploadFile =
      some (["A", "B", "D"].toFinset \ ["A", "B", "C"].toFinset) ∧
    Disjoint (["A", "B", "D"].toFinset ∩ ["A", "B", "C"].toFinset) (["A", "B", "D"].toFinset \ ["A", "B", "C"].toFinset) ∧
    (["A", "B", "D"].toFinset ∩ ["A", "B", "C"].toFinset) ∪ (["A", "B", "D"].toFinset \ ["A", "B", "C"].toFinset) = ["A", "B", "D"].toFinset :=
  diff_image_partition _ _ _ DOCKER_MANIFEST_V2 DOCKER_MANIFEST_V2 ["A", "B", "C"] ["A", "B", "D"]
    rfl rfl rfl rfl (by decide)

/-- Helper: the staging directory survives a `diff_image` run exactly when the
run fails. -/
theorem diff_image_staging_iff (env : DiffEnv) :
    (diff_image env).1.staging = false ↔ (diff_image env).2 = .ok () := by
  rcases hb : env.baseManifest with e | ⟨bm, bct⟩
  · simp [diff_image, hb]
  · rcases ht : env.targetManifest with e | ⟨tm, tct⟩
    · simp [diff_image, hb, ht]
    · rcases hpb : parse_blob_list bm with e | bl
      · simp [diff_image, hb, ht, hpb]
      · rcases hpt : parse_blob_list tm with e | tl
        · simp [diff_image, hb, ht, hpb, hpt]
        · by_cases hdl : ∀ d ∈ tl.toFinset \ bl.toFinset, env.downloadOk d = true
          · rw [diff_image_success_run env bm tm bct tct bl tl hb ht hpb hpt hdl]
            simp
          · have hrun : diff_image env =
                ({ staging := true, archive := false, mountFile := none, uploadFile := none },
                 .error "download failed") := by
              simp only [diff_image, hb, ht, hpb, hpt]
              rw [if_neg hdl]
            rw [hrun]
            simp

/-- Helper: the staging directory survives a `load_image` run exactly when the
run fails. -/
theorem load_image_staging_iff (env : LoadEnv) :
    (load_image env).1.staging = false ↔ (load_image env).2 = .ok () := by
  rcases hm : (mount_loop env.mountStatus (parse_blobs_file env.mountFile)).2 with e | u
  · simp [load_image, hm]
  · rcases hu : (upload_loop env.uploadOk (parse_blobs_file env.uploadFile)).2 with e | u2
    · simp [load_image, hm, hu]
    · by_cases hp : env.manifestPutOk
      · simp [load_image, hm, hu, hp]
      · simp [load_image, hm, hu, hp]

/-- C5 counterexample: a `diff_image` run whose base manifest fetch fails is a
failure path of the pack operation on which the `.ddiff-image` staging
directory is NOT removed (it is still present at the end of the run), so the
claim that cleanup happens on every failure path is false. -/
theorem diff_image_failure_keeps_staging :
    (diff_image { baseManifest := .error "HTTP error: 404", targetManifest := .error "HTTP error: 404", downloadOk := fun _ => true }).2 = .error "HTTP error: 404" ∧
    (diff_image { baseManifest := .error "HTTP error: 404", targetManifest := .error "HTTP error: 404", downloadOk := fun _ => true }).1.staging = true :=
  ⟨rfl, rfl⟩

/-- C5 amended: `diff_image` and `load_image` remove their `.ddiff-image`
staging directory on the success path only; on every failure path the staging
directory is left in place (a later invocation clears it when it starts, via
`shutil.rmtree(..., ignore_errors=True)`). -/
theorem staging_removed_on_success_only (denv : DiffEnv) (lenv : LoadEnv) :
    ((diff_image denv).2 = .ok () → (diff_image denv).1.staging = false) ∧
    (∀ e, (diff_image denv).2 = .error e → (diff_image denv).1.staging = true) ∧
    ((load_image lenv).2 = .ok () → (load_image lenv).1.staging = false) ∧
    (∀ e, (load_image lenv).2 = .error e → (load_image lenv).1.staging = true) := by
  refine ⟨fun h => (diff_image_staging_iff denv).mpr h, ?_, fun h => (load_image_staging_iff lenv).mpr h, ?_⟩
  · intro e he
    by_contra hs
    have hfalse : (diff_image denv).1.staging = false := by
      cases hst : (diff_image denv).1.staging
      · rfl
      · exact absurd hst hs
    rw [(diff_image_staging_iff denv).mp hfalse] at he
    cases he
  · intro e he
    by_contra hs
    have hfalse : (load_image lenv).1.staging = false := by
      cases hst : (load_image lenv).1.staging
      · rfl
      · exact absurd hst hs
    rw [(load_image_staging_iff lenv).mp hfalse] at he
    cases he

/-- C5 amended witness: a successful pack run and a successful replay run both
end with the staging directory removed. -/
theorem staging_removed_on_success_only_witness :
    (diff_image { baseManifest := .ok ({ mediaType := some DOCKER_MANIFEST_V2, config := some { digest := some "A" }, layers := [] }, DOCKER_MANIFEST_V2), targetManifest := .ok ({ mediaType := some DOCKER_MANIFEST_V2, config := some { digest := some "A" }, layers := [] }, DOCKER_MANIFEST_V2), downloadOk := fun _ => true }).2 = .ok () ∧
    (diff_image { baseManifest := .ok ({ mediaType := some DOCKER_MANIFEST_V2, config := some { digest := some "A" }, layers := [] }, DOCKER_MANIFEST_V2), targetManifest := .ok ({ mediaType := some DOCKER_MANIFEST_V2, config := some { digest := some "A" }, layers := [] }, DOCKER_MANIFEST_V2), downloadOk := fun _ => true }).1.staging = false ∧
    (load_image { mountFile := "A", uploadFile := "B", mountStatus := fun _ => 201, uploadOk := fun _ => true, manifestPutOk := true }).2 = .ok () ∧
    (load_image { mountFile := "A", uploadFile := "B", mountStatus := fun _ => 201, uploadOk := fun _ => true, manifestPutOk := true }).1.staging = false := by
  have h := staging_removed_on_success_only
    { baseManifest := .ok ({ mediaType := some DOCKER_MANIFEST_V2, config := some { digest := some "A" }, layers := [] }, DOCKER_MANIFEST_V2), targetManifest := .ok ({ mediaType := some DOCKER_MANIFEST_V2, config := some { digest := some "A" }, layers := [] }, DOCKER_MANIFEST_V2), downloadOk := fun _ => true }
    { mountFile := "A", uploadFile := "B", mountStatus := fun _ => 201, uploadOk := fun _ => true, manifestPutOk := true }
  exact ⟨rfl, h.1 rfl, rfl, h.2.2.1 rfl⟩

/-- C8: in a `diff_image` run where both manifests fetch and parse but the
download of a single exclusive blob fails, the operation raises an error, no
archive is created, and neither blob list file is written. -/
theorem download_failure_aborts_pack (env : DiffEnv) (bm tm : Manifest) (bct tct : String)
    (bl tl : List String) (d : String)
    (hb : env.baseManifest = .ok (bm, bct))
    (ht : env.targetManifest = .ok (tm, tct))
    (hpb : parse_blob_list bm = .ok bl)
    (hpt : parse_blob_list tm = .ok tl)
    (hd : d ∈ tl.toFinset \ bl.toFinset)
    (hfail : env.downloadOk d = false) :
    (∃ e, (diff_image env).2 = .error e) ∧
    (diff_image env).1.archive = false ∧
    (diff_image env).1.mountFile = none ∧
    (diff_image env).1.uploadFile = none := by
  have hnot : ¬ ∀ x ∈ tl.toFinset \ bl.toFinset, env.downloadOk x = true := by
    intro hall
    have := hall d hd
    rw [hfail] at this
    cases this
  have hrun : diff_image env =
      ({ staging := true, archive := false, mountFile := none, uploadFile := none },
       .error "download failed") := by
    simp only [diff_image, hb, ht, hpb, hpt]
    rw [if_neg hnot]
  rw [hrun]
  exact ⟨⟨_, rfl⟩, rfl, rfl, rfl⟩

/-- C8 witness: base blobs {A, B, C}, target blobs {A, B, D}, and the download
of the exclusive blob D fails: the pack run errors with no archive and no blob
list files. -/
theorem download_failure_aborts_pack_witness :
    (∃ e, (diff_image { baseManifest := .ok ({ mediaType := some DOCKER_MANIFEST_V2, config := some { digest := some "A" }, layers := [{ digest := some "B" }, { digest := some "C" }] }, DOCKER_MANIFEST_V2), targetManifest := .ok ({ mediaType := some DOCKER_MANIFEST_V2, config := some { digest := some "A" }, layers := [{ digest := some "B" }, { digest := some "D" }] }, DOCKER_MANIFEST_V2), downloadOk := fun _ => false }).2 = .error e) ∧
    (diff_image { baseManifest := .ok ({ mediaType := some DOCKER_MANIFEST_V2, config := some { digest := some "A" }, layers := [{ digest := some "B" }, { digest := some "C" }] }, DOCKER_MANIFEST_V2), targetManifest := .ok ({ mediaType := some DOCKER_MANIFEST_V2, config := some { digest := some "A" }, layers := [{ digest := some "B" }, { digest := some "D" }] }, DOCKER_MANIFEST_V2), downloadOk := fun _ => false }).1.archive = false ∧
    (diff_image { baseManifest := .ok ({ mediaType := some DOCKER_MANIFEST_V2, config := some { digest := some "A" }, layers := [{ digest := some "B" }, { digest := some "C" }] }, DOCKER_MANIFEST_V2), targetManifest := .ok ({ mediaType := some DOCKER_MANIFEST_V2, config := some { digest := some "A" }, layers := [{ digest := some "B" }, { digest := some "D" }] }, DOCKER_MANIFEST_V2), downloadOk := fun _ => false }).1.mountFile = none ∧
    (diff_image { baseManifest := .ok ({ mediaType := some DOCKER_MANIFEST_V2, config := some { digest := some "A" }, layers := [{ digest := some "B" }, { digest := some "C" }] }, DOCKER_MANIFEST_V2), targetManifest := .ok ({ mediaType := some DOCKER_MANIFEST_V2, config := some { digest := some "A" }, layers := [{ digest := some "B" }, { digest := some "D" }] }, DOCKER_MANIFEST_V2), downloadOk := fun _ => false }).1.uploadFile = none :=
  download_failure_aborts_pack _ _ _ DOCKER_MANIFEST_V2 DOCKER_MANIFEST_V2
    ["A", "B", "C"] ["A", "B", "D"] "D" rfl rfl rfl rfl (by decide) rfl

/-- Helper: a mount loop over digests whose statuses are all 201 or 202, at
least one of them 202, ends in a raised error. -/
theorem mount_loop_error_of_202 (status : String → Nat) :
    ∀ bs : List String, (∀ b ∈ bs, status b = 201 ∨ status b = 202) →
      (∃ d ∈ bs, status d = 202) →
      ∃ e, (mount_loop status bs).2 = .error e := by
  intro bs
  induction bs with
  | nil =>
    rintro _ ⟨d, hd, _⟩
    cases hd
  | cons b bs ih =>
    intro hall hex
    rcases hall b (List.mem_cons_self b bs) with h201 | h202
    · obtain ⟨d, hd, hd202⟩ := hex
      have hd2 : d ∈ bs := by
        rcases List.mem_cons.mp hd with rfl | hmem
        · rw [h201] at hd202
          omega
        · exact hmem
      obtain ⟨e, he⟩ := ih (fun x hx => hall x (List.mem_cons_of_mem b hx)) ⟨d, hd2, hd202⟩
      refine ⟨e, ?_⟩
      have hcm : cross_mount (status b) = .ok () := by
        rw [h201]
        rfl
      simp [mount_loop, hcm, he]
    · refine ⟨"Mount fallback: digest not found in base repository", ?_⟩
      have hcm : cross_mount (status b) =
          .error "Mount fallback: digest not found in base repository" := by
        rw [h202]
        rfl
      simp [mount_loop, hcm]

/-- C6: a cross-mount response with status 202 raises an error (and status 201
is a successful mount); in a replay whose mount statuses are all 201 or 202,
the presence of a single 202 aborts the whole `load_image` run before any
upload is performed, so the digest is never silently converted into an
upload. -/
theorem cross_mount_202_aborts :
    cross_mount 202 = .error "Mount fallback: digest not found in base repository" ∧
    cross_mount 201 = .ok () ∧
    ∀ env : LoadEnv,
      (∀ b ∈ parse_blobs_file env.mountFile, env.mountStatus b = 201 ∨ env.mountStatus b = 202) →
      (∃ d ∈ parse_blobs_file env.mountFile, env.mountStatus d = 202) →
      (∃ e, (load_image env).2 = .error e) ∧ (load_image env).1.uploadCalls = [] := by
  refine ⟨rfl, rfl, ?_⟩
  intro env hall hex
  obtain ⟨e, he⟩ := mount_loop_error_of_202 env.mountStatus _ hall hex
  constructor
  · exact ⟨e, by simp [load_image, he]⟩
  · simp [load_image, he]

/-- C6 witness: a replay with mountable digests "A" (status 201) and "B"
(status 202) aborts with an error and performs no upload. -/
theorem cross_mount_202_aborts_witness :
    (∃ e, (load_image { mountFile := "A|B", uploadFile := "C", mountStatus := fun s => if s = "B" then 202 else 201, uploadOk := fun _ => true, manifestPutOk := true }).2 = .error e) ∧
    (load_image { mountFile := "A|B", uploadFile := "C", mountStatus := fun s => if s = "B" then 202 else 201, uploadOk := fun _ => true, manifestPutOk := true }).1.uploadCalls = [] :=
  cross_mount_202_aborts.2.2
    { mountFile := "A|B", uploadFile := "C", mountStatus := fun s => if s = "B" then 202 else 201, uploadOk := fun _ => true, manifestPutOk := true }
    (by decide) (by decide)

/-- C10: an empty digest set is persisted as an empty MOUNT_BLOBS /
UPLOAD_BLOBS file, and `load_image` parses an empty file into the one-element
list [""] rather than the empty list, so it issues exactly one cross-mount
(resp. one upload) request with an empty-string digest instead of performing
zero operations for that phase. -/
theorem empty_blob_file_one_request (env : LoadEnv)
    (hm : env.mountFile = "") (hu : env.uploadFile = "")
    (hs : env.mountStatus "" = 201) :
    write_blobs_file [] = "" ∧
    parse_blobs_file "" = [""] ∧
    (load_image env).1.mountCalls = [""] ∧
    (load_image env).1.uploadCalls = [""] := by
  have hml : mount_loop env.mountStatus (parse_blobs_file env.mountFile) = ([""], .ok ()) := by
    rw [hm]
    have hcm : cross_mount (env.mountStatus "") = .ok () := by
      rw [hs]
      rfl
    simp [mount_loop, parse_blobs_file, splitOnChar, stripList, hcm]
  have hul : (upload_loop env.uploadOk (parse_blobs_file env.uploadFile)).1 = [""] := by
    rw [hu]
    by_cases hok : env.uploadOk "" = true
    · simp [upload_loop, parse_blobs_file, splitOnChar, stripList, hok]
    · simp [upload_loop, parse_blobs_file, splitOnChar, stripList, hok]
  refine ⟨rfl, rfl, ?_, ?_⟩
  · rcases hu2 : (upload_loop env.uploadOk (parse_blobs_file env.uploadFile)).2 with e | u
    · simp [load_image, hml, hu2]
    · by_cases hp : env.manifestPutOk
      · simp [load_image, hml, hu2, hp]
      · simp [load_image, hml, hu2, hp]
  · rcases hu2 : (upload_loop env.uploadOk (parse_blobs_file env.uploadFile)).2 with e | u
    · simp [load_image, hml, hu2, hul]
    · by_cases hp : env.manifestPutOk
      · simp [load_image, hml, hu2, hp, hul]
      · simp [load_image, hml, hu2, hp, hul]

/-- C10 witness: a concrete replay environment with empty MOUNT_BLOBS and
UPLOAD_BLOBS files issues exactly one cross-mount request and one upload
request, both with the empty-string digest. -/
theorem empty_blob_file_one_request_witness :
    write_blobs_file [] = "" ∧
    parse_blobs_file "" = [""] ∧
    (load_image { mountFile := "", uploadFile := "", mountStatus := fun _ => 201, uploadOk := fun _ => true, manifestPutOk := true }).1.mountCalls = [""] ∧
    (load_image { mountFile := "", uploadFile := "", mountStatus := fun _ => 201, uploadOk := fun _ => true, manifestPutOk := true }).1.uploadCalls = [""] :=
  empty_blob_file_one_request
    { mountFile := "", uploadFile := "", mountStatus := fun _ => 201, uploadOk := fun _ => true, manifestPutOk := true }
    rfl rfl rfl

/-- C2: the canonical blob path never receives unverified bytes.  For
`stream_download_blob`: any bytes found at the canonical path after the call
were either there before or hash to the digest's hex; and when the download is
actually attempted (canonical path absent, digest not deduped) and the hash
mismatches, the temporary file is removed, the digest is discarded from the
known-downloaded set, and the call fails.  For the manifest-as-blob write in
`process_image`: any bytes at the canonical path were there before or hash to
the manifest digest's hex. -/
theorem blob_verification (sha256_hex : Bytes → String) (digest : String)
    (body man_bytes : Bytes) (st : BlobStore) :
    (∀ b, ((stream_download_blob sha256_hex digest body st).1).canonical = some b →
      st.canonical = some b ∨ sha256_hex b = digestHex digest) ∧
    (st.canonical = none → digest ∉ st.downloaded → sha256_hex body ≠ digestHex digest →
      ((stream_download_blob sha256_hex digest body st).1).tmp = none ∧
      digest ∉ ((stream_download_blob sha256_hex digest body st).1).downloaded ∧
      ∃ e, (stream_download_blob sha256_hex digest body st).2 = .error e) ∧
    (∀ b, ((write_manifest_blob sha256_hex man_bytes st).1).canonical = some b →
      st.canonical = some b ∨ sha256_hex b = sha256_hex man_bytes) := by
  obtain ⟨cano, tm0, dl⟩ := st
  refine ⟨?_, ?_, ?_⟩
  · intro b hb
    cases cano with
    | some c0 =>
      left
      simpa [stream_download_blob] using hb
    | none =>
      by_cases hdl : digest ∈ dl
      · simp [stream_download_blob, hdl] at hb
      · by_cases hmatch : sha256_hex body = digestHex digest
        · right
          rw [← hmatch]
          have : body = b := by
            simpa [stream_download_blob, hdl, hmatch] using hb
          rw [this]
        · simp [stream_download_blob, hdl, hmatch] at hb
  · intro hc hdl hmatch
    cases cano with
    | some c0 => cases hc
    | none =>
      simp only at hdl
      refine ⟨?_, ?_, ?_⟩
      · simp [stream_download_blob, hdl, hmatch]
      · simp [stream_download_blob, hdl, hmatch]
      · exact ⟨"SHA256 mismatch for " ++ digest, by simp [stream_download_blob, hdl, hmatch]⟩
  · intro b hb
    cases cano with
    | some c0 =>
      left
      simpa [write_manifest_blob] using hb
    | none =>
      right
      have : man_bytes = b := by
        simpa [write_manifest_blob] using hb
      rw [this]

/-- C2 witness: a download whose computed hash "00" differs from the expected
hex "ff" of digest "sha256:ff" leaves no temporary file, removes the digest
from the dedup set, and fails. -/
theorem blob_verification_witness :
    ((fun _ => "00") ([1] : Bytes) ≠ digestHex "sha256:ff") ∧
    ((stream_download_blob (fun _ => "00") "sha256:ff" [1] { canonical := none, tmp := none, downloaded := ∅ }).1).tmp = none ∧
    "sha256:ff" ∉ ((stream_download_blob (fun _ => "00") "sha256:ff" [1] { canonical := none, tmp := none, downloaded := ∅ }).1).downloaded ∧
    (∃ e, (stream_download_blob (fun _ => "00") "sha256:ff" [1] { canonical := none, tmp := none, downloaded := ∅ }).2 = .error e) :=
  ⟨by decide,
   (blob_verification (fun _ => "00") "sha256:ff" [1] [0]
     { canonical := none, tmp := none, downloaded := ∅ }).2.1 rfl (by decide) (by decide)⟩

/-- Helper: `pick_amd64` finds no digest when no entry's platform matches
linux/amd64. -/
theorem pick_amd64_eq_none (entries : List PlatformEntry)
    (h : ∀ e ∈ entries, ¬(e.os = some "linux" ∧ e.architecture = some "amd64")) :
    pick_amd64 entries = none := by
  induction entries with
  | nil => rfl
  | cons a t ih =>
    have ha := h a (List.mem_cons_self a t)
    simp only [pick_amd64, if_neg ha]
    exact ih fun e he => h e (List.mem_cons_of_mem a he)

/-- Helper: when exactly one entry's platform matches linux/amd64,
`pick_amd64` returns that entry's digest. -/
theorem pick_amd64_unique (entries : List PlatformEntry) (e : PlatformEntry)
    (he : e ∈ entries) (hos : e.os = some "linux") (harch : e.architecture = some "amd64")
    (huniq : ∀ e2 ∈ entries, e2.os = some "linux" → e2.architecture = some "amd64" → e2 = e) :
    pick_amd64 entries = some e.digest := by
  induction entries with
  | nil => cases he
  | cons a t ih =>
    by_cases ha : a.os = some "linux" ∧ a.architecture = some "amd64"
    · have hae : a = e := huniq a (List.mem_cons_self a t) ha.1 ha.2
      subst hae
      simp only [pick_amd64, if_pos ha]
    · have he2 : e ∈ t := by
        rcases List.mem_cons.mp he with rfl | hmem
        · exact absurd ⟨hos, harch⟩ ha
        · exact hmem
      simp only [pick_amd64, if_neg ha]
      exact ih he2 fun e2 he2m hos2 harch2 =>
        huniq e2 (List.mem_cons_of_mem a he2m) hos2 harch2

/-- C7: when `fetch_manifest` resolves an index/list response, it selects
exactly the entry whose platform is linux/amd64 and fetches that entry's
manifest by digest; when no entry matches, the image fails with an error and
no fallback platform. -/
theorem fetch_manifest_platform_selection (entries : List PlatformEntry)
    (fetchByDigest : String → Bytes) (body : Bytes) :
    ((∀ e ∈ entries, ¬(e.os = some "linux" ∧ e.architecture = some "amd64")) →
      fetch_manifest true entries fetchByDigest body = .error "linux/amd64 not found in index") ∧
    (∀ e, e ∈ entries → e.os = some "linux" → e.architecture = some "amd64" →
      (∀ e2 ∈ entries, e2.os = some "linux" → e2.architecture = some "amd64" → e2 = e) →
      fetch_manifest true entries fetchByDigest body = .ok (fetchByDigest e.digest)) := by
  constructor
  · intro h
    simp [fetch_manifest, pick_amd64_eq_none entries h]
  · intro e he hos harch huniq
    simp [fetch_manifest, pick_amd64_unique entries e he hos harch huniq]

/-- C7 witness: an index holding linux/arm64 ("d1") and linux/amd64 ("d2")
entries resolves to the manifest fetched for digest "d2". -/
theorem fetch_manifest_platform_selection_witness :
    fetch_manifest true [{ os := some "linux", architecture := some "arm64", digest := "d1" }, { os := some "linux", architecture := some "amd64", digest := "d2" }] (fun d => if d = "d2" then [7] else [0]) [9] = .ok [7] :=
  (fetch_manifest_platform_selection
    [{ os := some "linux", architecture := some "arm64", digest := "d1" }, { os := some "linux", architecture := some "amd64", digest := "d2" }]
    (fun d => if d = "d2" then [7] else [0]) [9]).2
    { os := some "linux", architecture := some "amd64", digest := "d2" }
    (by decide) rfl rfl (by decide)

/-- Helper: the retry loop attempts the wrapped call at most `n` times. -/
theorem retryLoop_attempts_le {α : Type} (outcomes : Nat → Outcome α) :
    ∀ (n i : Nat) (last : Option ReqError), (retryLoop outcomes n i last).2.attempts ≤ n := by
  intro n
  induction n with
  | zero =>
    intro i last
    cases last <;> simp [retryLoop]
  | succ m ih =>
    intro i last
    cases ho : outcomes i with
    | ok a => simp [retryLoop, ho]
    | err e =>
      by_cases hr : retryableError e = true
      · have := ih (i + 1) (some e)
        simp only [retryLoop, ho, hr, if_true]
        omega
      · simp [retryLoop, ho, hr]

/-- Helper: when every attempted call fails with a retryable error, the loop
makes all its attempts, sleeps `min 8 (2 ^ i)` after the i-th, and raises the
last error. -/
theorem retryLoop_all_retryable {α : Type} (outcomes : Nat → Outcome α) (es : Nat → ReqError) :
    ∀ (n i : Nat) (last : Option ReqError),
      (∀ j, j < n + 1 → outcomes (i + j) = .err (es (i + j)) ∧ retryableError (es (i + j)) = true) →
      retryLoop outcomes (n + 1) i last =
        (.failure (es (i + n)),
         ⟨(List.range (n + 1)).map fun j => min 8 (1 * 2 ^ (i + j)), n + 1⟩) := by
  intro n
  induction n with
  | zero =>
    intro i last h
    obtain ⟨h0, hr0⟩ := h 0 (by omega)
    rw [Nat.add_zero] at h0 hr0
    simp [retryLoop, h0, hr0, List.range_succ]
  | succ m ih =>
    intro i last h
    obtain ⟨h0, hr0⟩ := h 0 (by omega)
    rw [Nat.add_zero] at h0 hr0
    have hrec := ih (i + 1) (some (es i)) (fun j hj => by
      have := h (j + 1) (by omega)
      rwa [show i + (j + 1) = i + 1 + j from by omega] at this)
    have hstep : retryLoop outcomes (m + 1 + 1) i last =
        (match outcomes i with
         | .ok a => (.success a, ⟨[], 1⟩)
         | .err e =>
           if retryableError e = true then
             ((retryLoop outcomes (m + 1) (i + 1) (some e)).1,
              ⟨min 8 (1 * 2 ^ i) :: (retryLoop outcomes (m + 1) (i + 1) (some e)).2.sleeps,
               (retryLoop outcomes (m + 1) (i + 1) (some e)).2.attempts + 1⟩)
           else (.failure e, ⟨[], 1⟩)) := rfl
    rw [hstep, h0]
    dsimp only
    rw [if_pos hr0, hrec]
    have h1 : i + 1 + m = i + (m + 1) := by omega
    rw [h1]
    have hcomp : ((fun j => min 8 (1 * 2 ^ (i + j))) ∘ Nat.succ) =
        fun j => min 8 (1 * 2 ^ (i + 1 + j)) := by
      funext j
      show min 8 (1 * 2 ^ (i + (j + 1))) = min 8 (1 * 2 ^ (i + 1 + j))
      have h3 : i + (j + 1) = i + 1 + j := by omega
      rw [h3]
    have h2 : (List.range (m + 1 + 1)).map (fun j => min 8 (1 * 2 ^ (i + j))) =
        min 8 (1 * 2 ^ i) :: (List.range (m + 1)).map fun j => min 8 (1 * 2 ^ (i + 1 + j)) := by
      rw [List.range_succ_eq_map, List.map_cons, List.map_map, Nat.add_zero, hcomp]
    rw [h2]

/-- Helper: when the first `k` attempts fail retryably and attempt `k` fails
with a non-retryable error, the loop raises that error immediately after
attempt `k + 1` of at most `n`. -/
theorem retryLoop_first_fatal {α : Type} (outcomes : Nat → Outcome α) :
    ∀ (k n i : Nat) (last : Option ReqError) (e : ReqError),
      k < n →
      (∀ j, j < k → ∃ e2, outcomes (i + j) = .err e2 ∧ retryableError e2 = true) →
      outcomes (i + k) = .err e → retryableError e = false →
      (retryLoop outcomes n i last).1 = .failure e ∧
      (retryLoop outcomes n i last).2.attempts = k + 1 := by
  intro k
  induction k with
  | zero =>
    intro n i last e hkn hpre hk hnr
    cases n with
    | zero => omega
    | succ m =>
      rw [Nat.add_zero] at hk
      simp [retryLoop, hk, hnr]
  | succ k ih =>
    intro n i last e hkn hpre hk hnr
    cases n with
    | zero => omega
    | succ m =>
      obtain ⟨e0, he0, hr0⟩ := hpre 0 (by omega)
      rw [Nat.add_zero] at he0
      have hrec := ih m (i + 1) (some e0) e (by omega)
        (fun j hj => by
          obtain ⟨e2, h1, h2⟩ := hpre (j + 1) (by omega)
          exact ⟨e2, by rwa [show i + (j + 1) = i + 1 + j from by omega] at h1, h2⟩)
        (by rwa [show i + (k + 1) = i + 1 + k from by omega] at hk) hnr
      constructor
      · simp only [retryLoop, he0, hr0, if_true]
        exact hrec.1
      · simp only [retryLoop, he0, hr0, if_true]
        rw [hrec.2]

/-- C9: the retry wrapper makes at most 5 attempts; when every attempt fails
with a retryable error it sleeps min(8, 1*2^i) seconds after attempt i and
finally raises the last error (sleep trace [1, 2, 4, 8, 8]); a non-retryable
error after k retryable ones is raised immediately at attempt k + 1; and an
error is retryable exactly when it is a connection error, a timeout, or an
HTTPError whose status is 429, 500, 502, 503 or 504 (an HTTPError without a
response is not retried). -/
theorem with_retry_behaviour {α : Type} (outcomes : Nat → Outcome α) :
    (with_retry outcomes).2.attempts ≤ 5 ∧
    (∀ es : Nat → ReqError,
      (∀ j, j < 5 → outcomes j = .err (es j) ∧ retryableError (es j) = true) →
      with_retry outcomes = (.failure (es 4), ⟨[1, 2, 4, 8, 8], 5⟩)) ∧
    (∀ k e, k < 5 →
      (∀ j, j < k → ∃ e2, outcomes j = .err e2 ∧ retryableError e2 = true) →
      outcomes k = .err e → retryableError e = false →
      (with_retry outcomes).1 = .failure e ∧ (with_retry outcomes).2.attempts = k + 1) ∧
    (∀ s, retryableError (.http (some s)) = true ↔
      (s = 429 ∨ s = 500 ∨ s = 502 ∨ s = 503 ∨ s = 504)) ∧
    retryableError .conn = true ∧ retryableError .timeout = true ∧
    retryableError (.http none) = false := by
  refine ⟨retryLoop_attempts_le outcomes 5 0 none, ?_, ?_, ?_, rfl, rfl, rfl⟩
  · intro es h
    have hall := retryLoop_all_retryable outcomes es 4 0 none (fun j hj => by
      have := h j (by omega)
      simpa using this)
    unfold with_retry
    rw [show (5 : Nat) = 4 + 1 from rfl, hall]
    have hes : (0 : Nat) + 4 = 4 := by omega
    rw [hes]
    have hmap : (List.range (4 + 1)).map (fun j => min 8 (1 * 2 ^ (0 + j))) =
        [1, 2, 4, 8, 8] := by decide
    rw [hmap]
  · intro k e hk hpre hke hnr
    exact retryLoop_first_fatal outcomes k 5 0 none e hk
      (fun j hj => by simpa using hpre j hj) (by simpa using hke) hnr
  · intro s
    simp [retryableError]

/-- C9 witness: a call that fails with a connection error on every attempt is
retried 5 times with sleep trace [1, 2, 4, 8, 8] and the last error is
raised. -/
theorem with_retry_behaviour_witness :
    retryableError ReqError.conn = true ∧
    with_retry (fun _ => (Outcome.err ReqError.conn : Outcome Unit)) =
      (.failure ReqError.conn, ⟨[1, 2, 4, 8, 8], 5⟩) :=
  ⟨rfl, (with_retry_behaviour (fun _ => (Outcome.err ReqError.conn : Outcome Unit))).2.1
    (fun _ => ReqError.conn) (fun _ _ => ⟨rfl, rfl⟩)⟩
